import Mathlib

/-!
Verification of the DataBridge core (retrieval/ingestion orchestration and
cache subsystem) against its natural-language specification.

The Python sources under `src/core/` are shallowly embedded as pure Lean
functions.  Stateful adapter calls (metadata store, vector index, blob store)
become explicit state passing; adapter behaviour the core merely depends on is
passed in as function-valued parameters, constrained by the contracts the
specification states for each adapter.  Python exceptions become `Except`
values; Python `float` scores are abstracted to `Int` (no claim depends on
floating-point behaviour); machine-level details (uuids, timestamps, JSON
encodings) are abstracted to explicit parameters or injective placeholders,
noted at each definition.
-/

namespace DataBridge

/-- Python exception values raised or caught by the embedded code. -/
inductive PyError where
  | attributeError (msg : String)
  | permissionError (msg : String)
  | valueError (msg : String)
  | typeError (msg : String)
  | genericException (msg : String)
deriving Repr, DecidableEq

/-- User metadata mappings (Python dicts of scalars) abstracted to
association lists from keys to string values. -/
abbrev MetaMap : Type := List (String × String)

/-- Metadata filters passed to retrieval; their evaluation is delegated to the
metadata-store adapter, so the core treats them opaquely. -/
abbrev Filters : Type := List (String × String)

/-- From src/core/models/auth.py lines 11..13: the decoded JWT context.  The
class declares exactly one field, `user_id`.  It does NOT declare
`permissions`, `entity_type` or `entity_id`, although `document_service.py`
and `api.py` read or construct those attributes. -/
structure AuthContext where
  user_id : String
deriving Repr, DecidableEq

/-- Python attribute lookup `auth.permissions`.  `AuthContext` (a pydantic
model) declares no such field, so the lookup finds nothing and the access
raises `AttributeError`; this is modelled by always returning `none`. -/
def authPermissions? (_ : AuthContext) : Option (List String) := none

/-- Python attribute lookup `auth.entity_type`; no such field is declared on
`AuthContext`, so the access raises `AttributeError` (modelled as `none`). -/
def authEntityType? (_ : AuthContext) : Option String := none

/-- Python attribute lookup `auth.entity_id`; no such field is declared on
`AuthContext`, so the access raises `AttributeError` (modelled as `none`). -/
def authEntityId? (_ : AuthContext) : Option String := none

/-- Modelled from the spec: `core/models/chunk.py` (class `Chunk`) is not
under src/.  A chunk is a contiguous slice of a document's text, the unit of
embedding; only its text content is relevant to the embedded pipeline. -/
structure Chunk where
  content : String
deriving Repr, DecidableEq

/-- Modelled from the spec: `core/models/chunk.py` (class `DocumentChunk`) is
not under src/.  A chunk persisted in the vector index: foreign key to its
document, 0-based chunk number, text content, embedding vector and the
query-time similarity score (scores and vectors abstracted to `Int`). -/
structure DocumentChunk where
  document_id : String
  chunk_number : Nat
  content : String
  embedding : List Int
  score : Int
deriving Repr, DecidableEq

/-- Modelled from the spec: `core/models/chunk.py` (`Chunk.to_document_chunk`)
is not under src/.  Builds the persisted chunk from the split chunk, its
assigned chunk number, its embedding and the parent document id. -/
def Chunk.to_document_chunk (c : Chunk) (chunk_number : Nat) (embedding : List Int)
    (document_id : String) : DocumentChunk :=
  { document_id := document_id, chunk_number := chunk_number, content := c.content,
    embedding := embedding, score := 0 }

/-- Modelled from the spec: `core/models/documents.py` (class `Document`) is
not under src/.  A document record: immutable external id, content type,
optional filename, user metadata, parser-extracted additional metadata, owner
(entity type and id), access-control identity sets, the raw textual content
kept in system metadata, optional blob-storage location (bucket, key) and the
ordered list of chunk ids.  Timestamps are abstracted away. -/
structure Document where
  external_id : String
  content_type : String
  filename : Option String
  metadata : MetaMap
  additional_metadata : MetaMap
  owner_type : String
  owner_id : String
  readers : List String
  writers : List String
  admins : List String
  system_metadata_content : Option String
  storage_info : Option (String × String)
  chunk_ids : List String
deriving Repr, DecidableEq

/-- Modelled from the spec: `core/models/documents.py` (class `ChunkResult`)
is not under src/.  A retrieval result: the surviving chunk enriched with its
parent document's metadata, content type, filename and download URL. -/
structure ChunkResult where
  content : String
  score : Int
  document_id : String
  chunk_number : Nat
  metadata : MetaMap
  content_type : String
  filename : Option String
  download_url : Option String
deriving Repr, DecidableEq

/-! ## Retrieval pipeline (document_service.py lines 56..96, 308..343)

The service holds its collaborators (`self.db`, `self.vector_store`,
`self.embedding_model`, `self.storage`, `self.reranker`, settings) as injected
dependencies; they are embedded as a record of function-valued fields.
`reranker` is `Optional` exactly as in `DocumentService.__init__`. -/

structure RetrievalAdapters where
  use_reranking_setting : Bool
  embed_for_query : String → List Int
  find_authorized_and_filtered_documents : AuthContext → Option Filters → List String
  query_similar : List Int → Nat → List String → List DocumentChunk
  reranker : Option (String → List DocumentChunk → List DocumentChunk)
  get_document : String → AuthContext → Option Document
  get_download_url : String → String → String

/-- Insertion step for the descending-by-score sort. -/
def insertDesc (c : DocumentChunk) : List DocumentChunk → List DocumentChunk
  | [] => [c]
  | x :: xs => if c.score ≥ x.score then c :: x :: xs else x :: insertDesc c xs

/-- Python `chunks.sort(key=lambda x: x.score, reverse=True)`: sort descending
by score (insertion sort; the claims depend only on membership and length). -/
def sortByScoreDesc : List DocumentChunk → List DocumentChunk
  | [] => []
  | c :: cs => insertDesc c (sortByScoreDesc cs)

/-- From src/core/services/document_service.py lines 308..343
(`_create_chunk_results`): enrich each chunk with its parent document's
metadata; a chunk whose parent document is not found is dropped. -/
def _create_chunk_results (A : RetrievalAdapters) (auth : AuthContext) :
    List DocumentChunk → List ChunkResult
  | [] => []
  | chunk :: rest =>
    match A.get_document chunk.document_id auth with
    | none => _create_chunk_results A auth rest
    | some doc =>
      { content := chunk.content, score := chunk.score,
        document_id := chunk.document_id, chunk_number := chunk.chunk_number,
        metadata := doc.metadata, content_type := doc.content_type,
        filename := doc.filename,
        download_url := doc.storage_info.map (fun bk => A.get_download_url bk.1 bk.2) }
        :: _create_chunk_results A auth rest

/-- From src/core/services/document_service.py lines 56..96
(`retrieve_chunks`): embed the query, resolve the authorized document-id set
(empty set short-circuits to `[]`), vector-search with `10*k` candidates when
reranking is requested else `k`, then, when candidates exist and reranking is
requested and a reranker is configured, rerank, sort descending by score and
truncate to `k`; finally enrich the surviving chunks.  `min_score` is accepted
and never used, exactly as in the source. -/
def retrieve_chunks (A : RetrievalAdapters) (query : String) (auth : AuthContext)
    (filters : Option Filters) (k : Nat) (min_score : Int)
    (use_reranking : Option Bool) : List ChunkResult :=
  let should_rerank := use_reranking.getD A.use_reranking_setting
  let query_embedding := A.embed_for_query query
  let doc_ids := A.find_authorized_and_filtered_documents auth filters
  if doc_ids.isEmpty then []
  else
    let chunks := A.query_similar query_embedding (if should_rerank then 10 * k else k) doc_ids
    let chunks2 :=
      match A.reranker with
      | some rr =>
        if !chunks.isEmpty && should_rerank then (sortByScoreDesc (rr query chunks)).take k
        else chunks
      | none => chunks
    _create_chunk_results A auth chunks2

/-! ## Deletion protocol (document_service.py lines 390..424)

The two backing stores touched by deletion are embedded as one explicit state:
the metadata store's document collection and the vector index's chunk set.
Collection entries model MongoDB documents: `owner_id` is `Option` because a
record stored by `store_document` carries an `owner` sub-document but no
top-level `owner_id` field (a missing field in a Mongo equality query matches
nothing). -/

structure DbRecord where
  external_id : String
  owner_id : Option String
deriving Repr, DecidableEq

structure Stores where
  db : List DbRecord
  vs : List DocumentChunk
deriving Repr, DecidableEq

/-- Number of chunks held by the vector index for a document id. -/
def countChunks (s : Stores) (external_id : String) : Nat :=
  (s.vs.filter (fun c => c.document_id == external_id)).length

/-- Adapter behaviour the deletion protocol calls through `self.db` and
`self.vector_store`.  `delete_chunks` returns the number of chunks actually
deleted.  Modelled from the spec for the return value: the concrete vector
store implementation is not under src/; `base_vector_store.py` annotates the
return as `bool`, but `document_service.py` binds it to `deleted_count` and
compares it against a chunk count, and the spec says the number actually
deleted is compared against the count observed earlier (Python annotations
are not enforced at runtime). -/
structure DeleteAdapters where
  get_document : Stores → String → AuthContext → Option DbRecord
  count_number_of_chunks : Stores → String → Nat
  delete_document : Stores → String → AuthContext → Bool × Stores
  delete_chunks : Stores → String → Nat × Stores

/-- From src/core/services/document_service.py lines 390..424
(`delete_document_and_chunks`): confirm the document is visible, confirm the
vector store holds a positive chunk count, delete the metadata record, delete
the chunks, and report failure when the deleted number differs from the count
observed before deletion. -/
def delete_document_and_chunks (A : DeleteAdapters) (s : Stores)
    (external_id : String) (auth : AuthContext) : Bool × Stores :=
  match A.get_document s external_id auth with
  | none => (false, s)
  | some _ =>
    let count := A.count_number_of_chunks s external_id
    if count == 0 then (false, s)
    else
      let dd := A.delete_document s external_id auth
      if !dd.1 then (false, dd.2)
      else
        let dc := A.delete_chunks dd.2 external_id
        if dc.1 != count then (false, dc.2) else (true, dc.2)

/-- From src/core/database/mongo_database.py lines 62..78 (`get_document`):
`find_one` on the conjunction of `external_id == document_id` with the access
filter built by `_build_access_filter` (lines 181..183), which is the single
equality `owner_id == auth.user_id`. -/
def mongoGetDocument (s : Stores) (document_id : String) (auth : AuthContext) :
    Option DbRecord :=
  s.db.find? (fun d => d.external_id == document_id && d.owner_id == some auth.user_id)

/-- Canonical delete adapters used for witnesses and counterexamples: the two
fault flags choose whether the metadata-record delete and the chunk delete
succeed (performing exactly their contractual effect) or fail (changing
nothing).  `get_document` looks the record up by external id alone. -/
def mkDeleteAdapters (dbFail vsFail : Bool) : DeleteAdapters where
  get_document := fun s id _ => s.db.find? (fun d => d.external_id == id)
  count_number_of_chunks := fun s id => countChunks s id
  delete_document := fun s id _ =>
    if dbFail then (false, s)
    else (true, { db := s.db.filter (fun d => d.external_id != id), vs := s.vs })
  delete_chunks := fun s id =>
    if vsFail then (0, s)
    else (countChunks s id,
      { db := s.db, vs := s.vs.filter (fun c => c.document_id != id) })

/-- The canonical delete adapters with Mongo's owner-filtered `get_document`
in place of the id-only lookup. -/
def mongoDeleteAdapters : DeleteAdapters :=
  { mkDeleteAdapters false false with get_document := mongoGetDocument }

/-! ## Ingestion pipeline (document_service.py lines 145..306)

Ingestion writes through the vector index and the metadata store; both are
embedded as one explicit state.  The parser, embedder, rules processor and
the two store adapters are injected as function-valued fields (`parser`,
`embedding_model`, `rules_processor`, `vector_store`, `db` on the service). -/

structure IngestStores where
  vs : List DocumentChunk
  db_docs : List Document
deriving Repr, DecidableEq

/-- Number of chunks held by the vector index for a document id. -/
def countIngestChunks (s : IngestStores) (external_id : String) : Nat :=
  (s.vs.filter (fun c => c.document_id == external_id)).length

structure IngestAdapters where
  split_text : String → List Chunk
  embed_for_ingestion : List Chunk → List (List Int)
  process_rules : String → List String → MetaMap × Option String
  store_embeddings : IngestStores → List DocumentChunk → (Bool × List String) × IngestStores
  store_document : IngestStores → Document → Bool × IngestStores

/-- Python `metadata.update(rule_metadata)`: association-list update where the
updating mapping's keys win. -/
def metaUpdate (m rule_metadata : MetaMap) : MetaMap :=
  m.filter (fun kv => !(rule_metadata.map Prod.fst).contains kv.1) ++ rule_metadata

/-- From src/core/services/document_service.py lines 278..288
(`_create_chunk_objects`): `enumerate(zip(embeddings, chunks))` — note that
`zip` silently truncates to the shorter of the two lists. -/
def _create_chunk_objects (doc_id : String) (chunks : List Chunk)
    (embeddings : List (List Int)) : List DocumentChunk :=
  ((embeddings.zip chunks).enum).map
    (fun p => p.2.2.to_document_chunk p.1 p.2.1 doc_id)

/-- From src/core/services/document_service.py lines 290..306
(`_store_chunks_and_doc`): store the chunk embeddings first; on success set
`doc.chunk_ids` to the ids the vector store returned, then store the document
record; a failure at either step raises after the earlier writes stand.  The
updated document is returned alongside the ids, mirroring Python's in-place
mutation of `doc`. -/
def _store_chunks_and_doc (A : IngestAdapters) (s : IngestStores)
    (chunk_objects : List DocumentChunk) (doc : Document) :
    IngestStores × Except PyError (List String × Document) :=
  let se := A.store_embeddings s chunk_objects
  if !se.1.1 then (se.2, .error (.genericException "Failed to store chunk embeddings"))
  else
    let doc2 := { doc with chunk_ids := se.1.2 }
    let sd := A.store_document se.2 doc2
    if !sd.1 then (sd.2, .error (.genericException "Failed to store document metadata"))
    else (sd.2, .ok (se.1.2, doc2))

/-- From src/core/services/document_service.py lines 180..201: the shared
tail of `ingest_text` after permission check, document creation and rule
processing — record the full content in system metadata, split, require a
non-empty chunk list, embed, build chunk objects and store everything. -/
def ingest_text_tail (A : IngestAdapters) (s : IngestStores) (doc : Document)
    (content : String) : IngestStores × Except PyError Document :=
  let doc := { doc with system_metadata_content := some content }
  let chunks := A.split_text content
  if chunks.isEmpty then (s, .error (.valueError "No content chunks extracted"))
  else
    let embeddings := A.embed_for_ingestion chunks
    let chunk_objects := _create_chunk_objects doc.external_id chunks embeddings
    let r := _store_chunks_and_doc A s chunk_objects doc
    match r.2 with
    | .error e => (r.1, .error e)
    | .ok p => (r.1, .ok p.2)

/-- Document construction at src/core/services/document_service.py lines
157..166: a fresh text document owned by the caller.  The generated uuid is
abstracted to the explicit `fresh_id` argument. -/
def mkNewTextDocument (fresh_id : String) (metadata : MetaMap)
    (entity_type entity_id : String) : Document :=
  { external_id := fresh_id, content_type := "text/plain", filename := none,
    metadata := metadata, additional_metadata := [],
    owner_type := entity_type, owner_id := entity_id,
    readers := [entity_id], writers := [entity_id], admins := [entity_id],
    system_metadata_content := none, storage_info := none, chunk_ids := [] }

/-- The permission check opening both ingestion entry points —
src/core/services/document_service.py lines 153..155 (`ingest_text`) and
lines 211..212 (`ingest_file`): evaluate `auth.permissions` and raise
`PermissionError` when `"write"` is not among them.  `AuthContext` (auth.py)
declares no `permissions` field, so the attribute access itself raises
`AttributeError` first, for every caller.  In `ingest_file` this check
likewise precedes the file read, parsing, blob upload and every store write,
so no `ingest_file` call reaches them either. -/
def ingest_permission_gate (auth : AuthContext) : Option PyError :=
  match authPermissions? auth with
  | none => some (.attributeError "AuthContext object has no attribute permissions")
  | some perms =>
    if !(perms.contains "write") then
      some (.permissionError "User does not have write permission")
    else none

/-- From src/core/services/document_service.py lines 145..201 (`ingest_text`).
The permission gate of line 153 runs first (and, given auth.py's
`AuthContext`, always raises `AttributeError`).  The remaining branches
mirror the source: document creation (lines 160 and 164 read
`auth.entity_type` and `auth.entity_id`, also undeclared fields), the
optional rule pass whose extracted metadata is merged into the
caller-supplied `metadata` object (line 173 — `AttributeError` when that
object is `None`), content replacement when a rule rewrote the text, and the
shared tail. -/
def ingest_text (A : IngestAdapters) (s : IngestStores) (fresh_id : String)
    (content : String) (metadata : Option MetaMap) (auth : AuthContext)
    (rules : List String) : IngestStores × Except PyError Document :=
  match ingest_permission_gate auth with
  | some e => (s, .error e)
  | none =>
      match authEntityType? auth, authEntityId? auth with
      | some et, some ei =>
        let doc := mkNewTextDocument fresh_id (metadata.getD []) et ei
        if rules.isEmpty then ingest_text_tail A s doc content
        else
          let pr := A.process_rules content rules
          match metadata with
          | none => (s, .error (.attributeError "NoneType object has no attribute update"))
          | some m =>
            let m2 := metaUpdate m pr.1
            let doc := { doc with metadata := m2 }
            let content2 :=
              match pr.2 with
              | some t => if t.isEmpty then content else t
              | none => content
            ingest_text_tail A s doc content2
      | _, _ => (s, .error (.attributeError "AuthContext object has no attribute entity_type"))

/-! ## Cache manager (document_service.py lines 426..506)

State: the metadata store's cache descriptors, the blob store's payloads
addressed by (bucket, key), and the process-local map of active caches.
Modelled from the spec for the serialized payload: the cache factory
(`core/cache/`) is not under src/; the primed state is serialized over the
cache's document set, so a blob payload is represented by the list of
serialized documents it primes, and deserializing recovers exactly that
list.  `Document.model_dump_json` is abstracted to the document's globally
unique `external_id`. -/

def serializeDoc (d : Document) : String := d.external_id

structure CacheDescriptor where
  model : String
  model_file : String
  filters : Option Filters
  docs : List String
  storage_bucket : String
  storage_key : String
deriving Repr, DecidableEq

structure CacheStores where
  cache_metadata : List (String × CacheDescriptor)
  blobs : List ((String × String) × List String)
  active_caches : List (String × List String)
deriving Repr, DecidableEq

/-- Upsert into an association list (replace the binding if present). -/
def upsertA [BEq κ] (l : List (κ × α)) (k : κ) (v : α) : List (κ × α) :=
  (k, v) :: l.filter (fun kv => kv.1 != k)

/-- From src/core/services/document_service.py lines 426..475
(`create_cache`): build the descriptor with storage location bucket
`"caches"` and key `name ++ "_state.pkl"`, upsert it into the metadata
store (`mongo_database.py` lines 185..209), build the primed cache over
`docs`, serialize it and upload it under exactly that (bucket, key).
The in-memory pure store makes both stores' writes always succeed. -/
def create_cache (s : CacheStores) (name model gguf_file : String)
    (docs : List Document) (filters : Option Filters) : CacheStores × Bool :=
  let key := name ++ "_state.pkl"
  let md : CacheDescriptor :=
    { model := model, model_file := gguf_file, filters := filters,
      docs := docs.map serializeDoc, storage_bucket := "caches", storage_key := key }
  let s1 := { s with cache_metadata := upsertA s.cache_metadata name md }
  let state := docs.map serializeDoc
  let s2 := { s1 with blobs := upsertA s1.blobs ("caches", key) state }
  (s2, true)

/-- From src/core/services/document_service.py lines 477..506 (`load_cache`):
fetch the descriptor; if absent report failure; download the serialized state
from the descriptor's bucket under the key `"caches/" ++ storage_key` (note:
not the key `create_cache` uploaded under); a failed download raises inside
the `try`, is caught, and the call reports failure with no cache registered;
on success deserialize and register the cache under `name`. -/
def load_cache (s : CacheStores) (name : String) : CacheStores × Bool :=
  match s.cache_metadata.lookup name with
  | none => (s, false)
  | some md =>
    match s.blobs.lookup (md.storage_bucket, "caches/" ++ md.storage_key) with
    | none => (s, false)
    | some state => ({ s with active_caches := upsertA s.active_caches name state }, true)

/-! ## Supporting lemmas for the retrieval pipeline -/

theorem mem_insertDesc (a c : DocumentChunk) (l : List DocumentChunk) :
    a ∈ insertDesc c l → a = c ∨ a ∈ l := by
  induction l with
  | nil => intro h; simp [insertDesc] at h; exact Or.inl h
  | cons x xs ih =>
    intro h
    by_cases hc : c.score ≥ x.score
    · simp [insertDesc, hc] at h
      rcases h with h | h | h
      · exact Or.inl h
      · exact Or.inr (by simp [h])
      · exact Or.inr (by simp [h])
    · simp [insertDesc, hc] at h
      rcases h with h | h
      · exact Or.inr (by simp [h])
      · rcases ih h with h2 | h2
        · exact Or.inl h2
        · exact Or.inr (by simp [h2])

theorem mem_sortByScoreDesc (a : DocumentChunk) (l : List DocumentChunk) :
    a ∈ sortByScoreDesc l → a ∈ l := by
  induction l with
  | nil => intro h; simp [sortByScoreDesc] at h
  | cons x xs ih =>
    intro h
    rcases mem_insertDesc a x (sortByScoreDesc xs) h with h2 | h2
    · simp [h2]
    · simp [ih h2]

theorem length_create_chunk_results (A : RetrievalAdapters) (auth : AuthContext)
    (cs : List DocumentChunk) :
    (_create_chunk_results A auth cs).length ≤ cs.length := by
  induction cs with
  | nil => simp [_create_chunk_results]
  | cons c rest ih =>
    cases hd : A.get_document c.document_id auth with
    | none =>
      simp only [_create_chunk_results, hd]
      exact Nat.le_succ_of_le ih
    | some doc =>
      simp only [_create_chunk_results, hd, List.length_cons]
      exact Nat.succ_le_succ ih

theorem mem_create_chunk_results (A : RetrievalAdapters) (auth : AuthContext)
    (cs : List DocumentChunk) (r : ChunkResult) :
    r ∈ _create_chunk_results A auth cs → ∃ c ∈ cs, r.document_id = c.document_id := by
  induction cs with
  | nil => intro h; simp [_create_chunk_results] at h
  | cons c rest ih =>
    intro h
    cases hd : A.get_document c.document_id auth with
    | none =>
      rw [_create_chunk_results, hd] at h
      rcases ih h with ⟨c0, hc0, he⟩
      exact ⟨c0, by simp [hc0], he⟩
    | some doc =>
      rw [_create_chunk_results, hd] at h
      rcases List.mem_cons.mp h with h2 | h2
      · exact ⟨c, by simp, by simp [h2]⟩
      · rcases ih h2 with ⟨c0, hc0, he⟩
        exact ⟨c0, by simp [hc0], he⟩

/-! ## Claims C8 and C9 -/

/-- Claim C8: for every query, auth context, filters, k and reranking flag,
and any two values of `min_score`, `retrieve_chunks` returns the same result
— the pipeline itself never filters by `min_score`; floor enforcement is left
to the adapters (which never receive the value either: `query_similar` takes
no score argument). -/
theorem claim_C8_theorem (A : RetrievalAdapters) (query : String)
    (auth : AuthContext) (filters : Option Filters) (k : Nat)
    (use_reranking : Option Bool) (s1 s2 : Int) :
    retrieve_chunks A query auth filters k s1 use_reranking =
      retrieve_chunks A query auth filters k s2 use_reranking := rfl

/-- Claim C9: a caller whose authorized-and-filtered document-id set is empty
gets an empty list back, with no error, and the result does not depend on the
vector-search adapter at all (the search is never consulted). -/
theorem claim_C9_theorem (A : RetrievalAdapters) (query : String)
    (auth : AuthContext) (filters : Option Filters) (k : Nat) (min_score : Int)
    (use_reranking : Option Bool)
    (h : A.find_authorized_and_filtered_documents auth filters = []) :
    retrieve_chunks A query auth filters k min_score use_reranking = [] ∧
      ∀ qs2, retrieve_chunks { A with query_similar := qs2 }
        query auth filters k min_score use_reranking = [] := by
  constructor
  · simp [retrieve_chunks, h]
  · intro qs2
    simp [retrieve_chunks, h]

/-- Adapters used by the C9 witness: the access filter authorizes no
document; the vector search would return a chunk if it were ever consulted. -/
def c9Adapters : RetrievalAdapters where
  use_reranking_setting := false
  embed_for_query := fun _ => []
  find_authorized_and_filtered_documents := fun _ _ => []
  query_similar := fun _ _ _ =>
    [{ document_id := "d1", chunk_number := 0, content := "x", embedding := [], score := 0 }]
  reranker := none
  get_document := fun _ _ => none
  get_download_url := fun _ _ => "url"

theorem claim_C9_witness :
    retrieve_chunks c9Adapters "q" ⟨"u"⟩ none 5 0 none = [] ∧
      ∀ qs2, retrieve_chunks { c9Adapters with query_similar := qs2 }
        "q" ⟨"u"⟩ none 5 0 none = [] :=
  claim_C9_theorem c9Adapters "q" ⟨"u"⟩ none 5 0 none rfl

/-! ## Claim C2 -/

/-- Claim C2, amended.  Under the adapter contracts — the vector search
returns at most as many chunks as requested and only chunks from the allowed
id set, and a reranker returns only (rescored) chunks drawn from its input —
a `retrieve_chunks` call with `use_reranking = true`: (1) returns at most `k`
chunks WHEN A RERANKER IS CONFIGURED; (2) always returns only chunks whose
parent document id lies in the authorized-and-filtered id set computed for
the caller; (3) when no reranker is configured, reranking is silently skipped
(not an error): the call returns exactly the enrichment of the raw
`10*k`-candidate search result, and may therefore exceed `k` chunks (the
original claim's unconditional `≤ k` bound fails there, see the
counterexample). -/
theorem claim_C2_theorem (A : RetrievalAdapters)
    (Hqs_mem : ∀ e kk ids c, c ∈ A.query_similar e kk ids → c.document_id ∈ ids)
    (Hrr : ∀ rr, A.reranker = some rr → ∀ q cs c, c ∈ rr q cs →
      c.document_id ∈ cs.map (fun x => x.document_id))
    (query : String) (auth : AuthContext) (filters : Option Filters) (k : Nat)
    (min_score : Int) :
    (A.reranker.isSome = true →
      (retrieve_chunks A query auth filters k min_score (some true)).length ≤ k) ∧
    (∀ r ∈ retrieve_chunks A query auth filters k min_score (some true),
      r.document_id ∈ A.find_authorized_and_filtered_documents auth filters) ∧
    (A.reranker = none →
      retrieve_chunks A query auth filters k min_score (some true) =
        _create_chunk_results A auth
          (if (A.find_authorized_and_filtered_documents auth filters).isEmpty then []
           else A.query_similar (A.embed_for_query query) (10 * k)
             (A.find_authorized_and_filtered_documents auth filters))) := by
  by_cases hde : (A.find_authorized_and_filtered_documents auth filters).isEmpty
  · have hret : retrieve_chunks A query auth filters k min_score (some true) = [] := by
      simp [retrieve_chunks, hde]
    refine ⟨fun _ => by simp [hret], fun r hr => by simp [hret] at hr, fun hn => ?_⟩
    rw [hret]
    simp [hde, _create_chunk_results]
  · cases hrr0 : A.reranker with
    | none =>
      have hret : retrieve_chunks A query auth filters k min_score (some true) =
          _create_chunk_results A auth
            (A.query_similar (A.embed_for_query query) (10 * k)
              (A.find_authorized_and_filtered_documents auth filters)) := by
        simp [retrieve_chunks, hde, hrr0]
      refine ⟨fun hs => by simp [hrr0] at hs, fun r hr => ?_, fun _ => by
        rw [hret]; simp [hde]⟩
      rw [hret] at hr
      rcases mem_create_chunk_results A auth _ r hr with ⟨c, hc, he⟩
      rw [he]
      exact Hqs_mem _ _ _ c hc
    | some rr =>
      by_cases hce : (A.query_similar (A.embed_for_query query) (10 * k)
          (A.find_authorized_and_filtered_documents auth filters)).isEmpty
      · have hret : retrieve_chunks A query auth filters k min_score (some true) =
            _create_chunk_results A auth
              (A.query_similar (A.embed_for_query query) (10 * k)
                (A.find_authorized_and_filtered_documents auth filters)) := by
          simp [retrieve_chunks, hde, hrr0, hce]
        have hnil : A.query_similar (A.embed_for_query query) (10 * k)
            (A.find_authorized_and_filtered_documents auth filters) = [] :=
          List.isEmpty_iff.mp hce
        refine ⟨fun _ => ?_, fun r hr => ?_, fun hn => Option.noConfusion hn⟩
        · rw [hret, hnil]; simp [_create_chunk_results]
        · rw [hret, hnil] at hr; simp [_create_chunk_results] at hr
      · have hret : retrieve_chunks A query auth filters k min_score (some true) =
            _create_chunk_results A auth
              ((sortByScoreDesc (rr query
                (A.query_similar (A.embed_for_query query) (10 * k)
                  (A.find_authorized_and_filtered_documents auth filters)))).take k) := by
          simp [retrieve_chunks, hde, hrr0, hce]
        refine ⟨fun _ => ?_, fun r hr => ?_, fun hn => Option.noConfusion hn⟩
        · rw [hret]
          exact le_trans (length_create_chunk_results A auth _)
            (List.length_take_le _ _)
        · rw [hret] at hr
          rcases mem_create_chunk_results A auth _ r hr with ⟨c, hc, he⟩
          have hc2 : c ∈ sortByScoreDesc (rr query
              (A.query_similar (A.embed_for_query query) (10 * k)
                (A.find_authorized_and_filtered_documents auth filters))) :=
            List.take_subset _ _ hc
          have hc3 := mem_sortByScoreDesc c _ hc2
          have hc4 := Hrr rr hrr0 query _ c hc3
          rcases List.mem_map.mp hc4 with ⟨c0, hc0, he0⟩
          rw [he, ← he0]
          exact Hqs_mem _ _ _ c0 hc0

/-- Chunk built from a bare document id, for concrete adapter instances. -/
def mkChunkFor (id : String) : DocumentChunk :=
  { document_id := id, chunk_number := 0, content := "x", embedding := [], score := 0 }

/-- Document built from a bare id, for concrete adapter instances. -/
def mkDocFor (id : String) : Document :=
  { external_id := id, content_type := "text/plain", filename := none,
    metadata := [], additional_metadata := [], owner_type := "user",
    owner_id := "u", readers := ["u"], writers := ["u"], admins := ["u"],
    system_metadata_content := none, storage_info := none, chunk_ids := [] }

/-- Contract-abiding adapters with NO reranker configured: the access filter
authorizes `d1`; the vector search returns up to `min 2 kk` chunks drawn from
the allowed id set; every document lookup succeeds. -/
def c2cxAdapters : RetrievalAdapters where
  use_reranking_setting := false
  embed_for_query := fun _ => []
  find_authorized_and_filtered_documents := fun _ _ => ["d1"]
  query_similar := fun _ kk ids => ((ids ++ ids).map mkChunkFor).take (min 2 kk)
  reranker := none
  get_document := fun id _ => some (mkDocFor id)
  get_download_url := fun _ _ => "url"

theorem c2cxAdapters_query_similar_len :
    ∀ e kk ids, (c2cxAdapters.query_similar e kk ids).length ≤ kk := by
  intro e kk ids
  exact le_trans (List.length_take_le _ _) (Nat.min_le_right 2 kk)

theorem c2cxAdapters_query_similar_mem :
    ∀ e kk ids c, c ∈ c2cxAdapters.query_similar e kk ids → c.document_id ∈ ids := by
  intro e kk ids c h
  have h2 : c ∈ (ids ++ ids).map mkChunkFor := List.take_subset _ _ h
  rcases List.mem_map.mp h2 with ⟨id, hid, he⟩
  rw [← he]
  rcases List.mem_append.mp hid with h3 | h3 <;> exact h3

/-- Claim C2, counterexample to the original statement: with the
contract-abiding adapters above (see the two lemmas), `use_reranking = true`
and `k = 1`, no reranker is configured, so reranking is silently skipped, the
`10 * k = 10`-candidate over-fetch is never truncated back to `k`, and the
call returns 2 chunks — more than `k`. -/
theorem claim_C2_counterexample :
    ¬ ((retrieve_chunks c2cxAdapters "q" ⟨"u"⟩ none 1 0 (some true)).length ≤ 1) := by
  have h : (retrieve_chunks c2cxAdapters "q" ⟨"u"⟩ none 1 0 (some true)).length = 2 := rfl
  omega

/-- The counterexample adapters with an identity reranker configured, for the
witness of the amended claim. -/
def c2wAdapters : RetrievalAdapters :=
  { c2cxAdapters with reranker := some (fun _ cs => cs) }

theorem c2wAdapters_reranker_mem :
    ∀ rr, c2wAdapters.reranker = some rr → ∀ q cs c, c ∈ rr q cs →
      c.document_id ∈ cs.map (fun x => x.document_id) := by
  intro rr h q cs c hc
  have h2 : rr = fun _ cs => cs := by
    simpa [c2wAdapters, c2cxAdapters] using h.symm
  rw [h2] at hc
  exact List.mem_map_of_mem _ hc

theorem claim_C2_witness :
    (c2wAdapters.reranker.isSome = true →
      (retrieve_chunks c2wAdapters "q" ⟨"u"⟩ none 1 0 (some true)).length ≤ 1) ∧
    (∀ r ∈ retrieve_chunks c2wAdapters "q" ⟨"u"⟩ none 1 0 (some true),
      r.document_id ∈ c2wAdapters.find_authorized_and_filtered_documents ⟨"u"⟩ none) ∧
    (c2wAdapters.reranker = none →
      retrieve_chunks c2wAdapters "q" ⟨"u"⟩ none 1 0 (some true) =
        _create_chunk_results c2wAdapters ⟨"u"⟩
          (if (c2wAdapters.find_authorized_and_filtered_documents ⟨"u"⟩ none).isEmpty then []
           else c2wAdapters.query_similar (c2wAdapters.embed_for_query "q") (10 * 1)
             (c2wAdapters.find_authorized_and_filtered_documents ⟨"u"⟩ none))) :=
  claim_C2_theorem c2wAdapters
    (fun e kk ids c h => c2cxAdapters_query_similar_mem e kk ids c h)
    c2wAdapters_reranker_mem "q" ⟨"u"⟩ none 1 0

/-! ## Claim C1 -/

theorem mkDeleteAdapters_delete_document_contract (dbFail vsFail : Bool) :
    ∀ s id auth,
      (((mkDeleteAdapters dbFail vsFail).delete_document s id auth).1 = false →
        ((mkDeleteAdapters dbFail vsFail).delete_document s id auth).2 = s) ∧
      (((mkDeleteAdapters dbFail vsFail).delete_document s id auth).1 = true →
        ((mkDeleteAdapters dbFail vsFail).delete_document s id auth).2 =
          { db := s.db.filter (fun d => d.external_id != id), vs := s.vs }) := by
  intro s id auth
  cases dbFail <;> simp [mkDeleteAdapters]

theorem mkDeleteAdapters_delete_chunks_contract (dbFail vsFail : Bool) :
    ∀ s id,
      (((mkDeleteAdapters dbFail vsFail).delete_chunks s id).1 = countChunks s id ∧
        ((mkDeleteAdapters dbFail vsFail).delete_chunks s id).2 =
          { db := s.db, vs := s.vs.filter (fun c => c.document_id != id) }) ∨
      (((mkDeleteAdapters dbFail vsFail).delete_chunks s id).1 = 0 ∧
        ((mkDeleteAdapters dbFail vsFail).delete_chunks s id).2 = s) := by
  intro s id
  cases vsFail
  · exact Or.inl (by simp [mkDeleteAdapters])
  · exact Or.inr (by simp [mkDeleteAdapters])

theorem mkDeleteAdapters_count_contract (dbFail vsFail : Bool) :
    ∀ s id, (mkDeleteAdapters dbFail vsFail).count_number_of_chunks s id =
      countChunks s id := by
  intro s id
  simp [mkDeleteAdapters]

/-- Claim C1, amended.  Under the adapter contracts — the metadata-record
delete either deletes exactly the record or fails changing nothing, the chunk
delete either deletes exactly the document's chunks (returning their number)
or fails deleting nothing, and the chunk count reports the number of chunks
held — a delete whose pre-check passes either reports success having removed
exactly the observed chunks and the metadata record, or reports failure; on
failure, either both stores are unchanged (the metadata delete failed), or
the metadata record has been removed while the chunks all remain (the chunk
delete failed after the metadata delete, the state the source's ordering
deliberately bounds the inconsistency to).  The original claim's "failure
leaves both stores unchanged" is refuted by the counterexample. -/
theorem claim_C1_theorem (A : DeleteAdapters)
    (Hdd : ∀ s id auth,
      ((A.delete_document s id auth).1 = false →
        (A.delete_document s id auth).2 = s) ∧
      ((A.delete_document s id auth).1 = true →
        (A.delete_document s id auth).2 =
          { db := s.db.filter (fun d => d.external_id != id), vs := s.vs }))
    (Hdc : ∀ s id,
      (((A.delete_chunks s id).1 = countChunks s id) ∧
        (A.delete_chunks s id).2 =
          { db := s.db, vs := s.vs.filter (fun c => c.document_id != id) }) ∨
      (((A.delete_chunks s id).1 = 0) ∧ (A.delete_chunks s id).2 = s))
    (Hcnt : ∀ s id, A.count_number_of_chunks s id = countChunks s id)
    (s : Stores) (ext : String) (auth : AuthContext) (doc : DbRecord)
    (hfound : A.get_document s ext auth = some doc)
    (hcnt : A.count_number_of_chunks s ext ≠ 0) :
    ((delete_document_and_chunks A s ext auth).1 = true →
      (delete_document_and_chunks A s ext auth).2 =
        { db := s.db.filter (fun d => d.external_id != ext),
          vs := s.vs.filter (fun c => c.document_id != ext) }) ∧
    ((delete_document_and_chunks A s ext auth).1 = false →
      (delete_document_and_chunks A s ext auth).2 = s ∨
      (delete_document_and_chunks A s ext auth).2 =
        { db := s.db.filter (fun d => d.external_id != ext), vs := s.vs }) := by
  obtain ⟨hdd_f, hdd_t⟩ := Hdd s ext auth
  have hc0 : (A.count_number_of_chunks s ext == 0) = false := by
    simpa using hcnt
  cases hb : (A.delete_document s ext auth).1 with
  | false =>
    have hres : delete_document_and_chunks A s ext auth =
        (false, (A.delete_document s ext auth).2) := by
      unfold delete_document_and_chunks
      rw [hfound]
      simp only [hc0, Bool.false_eq_true, if_false, hb, Bool.not_false, if_true]
    rw [hres, hdd_f hb]
    exact ⟨(fun h => nomatch h), fun _ => Or.inl rfl⟩
  | true =>
    have hs1 : (A.delete_document s ext auth).2 =
        { db := s.db.filter (fun d => d.external_id != ext), vs := s.vs } := hdd_t hb
    have hcount1 : countChunks (A.delete_document s ext auth).2 ext = countChunks s ext := by
      rw [hs1]; rfl
    rcases Hdc (A.delete_document s ext auth).2 ext with ⟨hn, hs2⟩ | ⟨hn, hs2⟩
    · -- chunk delete succeeded: the deleted number equals the observed count
      have hmatch : ((A.delete_chunks (A.delete_document s ext auth).2 ext).1 !=
          A.count_number_of_chunks s ext) = false := by
        rw [hn, hcount1, Hcnt]
        simp
      have hres : delete_document_and_chunks A s ext auth =
          (true, (A.delete_chunks (A.delete_document s ext auth).2 ext).2) := by
        unfold delete_document_and_chunks
        rw [hfound]
        simp only [hc0, Bool.false_eq_true, if_false, hb, Bool.not_true, hmatch, if_true]
      rw [hres, hs2, hs1]
      exact ⟨fun _ => rfl, fun h => nomatch h⟩
    · -- chunk delete failed: nothing deleted, mismatch reported
      have hmismatch : ((A.delete_chunks (A.delete_document s ext auth).2 ext).1 !=
          A.count_number_of_chunks s ext) = true := by
        rw [hn]
        exact bne_iff_ne.mpr (fun h => hcnt h.symm)
      have hres : delete_document_and_chunks A s ext auth =
          (false, (A.delete_chunks (A.delete_document s ext auth).2 ext).2) := by
        unfold delete_document_and_chunks
        rw [hfound]
        simp only [hc0, Bool.false_eq_true, if_false, hb, Bool.not_true, hmismatch, if_true]
      rw [hres, hs2, hs1]
      exact ⟨(fun h => nomatch h), fun _ => Or.inr rfl⟩

/-- Concrete pre-call state for the C1 counterexample and witness: one
metadata record owned by alice and one indexed chunk for the same document. -/
def c1cxStores : Stores :=
  { db := [{ external_id := "d1", owner_id := some "alice" }],
    vs := [mkChunkFor "d1"] }

/-- Claim C1, counterexample to the original statement.  Adapters satisfying
every contract (see the three contract lemmas), where the metadata delete
succeeds and the chunk delete fails deleting nothing: the pre-check passes
(document found, chunk count 1 > 0), yet the call neither removes the chunks
together with the metadata record nor reports failure with both stores
unchanged — it reports failure AFTER the metadata record is already gone, a
partial delete visible to subsequent reads. -/
theorem claim_C1_counterexample :
    (mkDeleteAdapters false true).get_document c1cxStores "d1" ⟨"alice"⟩ =
      some { external_id := "d1", owner_id := some "alice" } ∧
    (mkDeleteAdapters false true).count_number_of_chunks c1cxStores "d1" = 1 ∧
    ¬ ((((delete_document_and_chunks (mkDeleteAdapters false true) c1cxStores "d1"
          ⟨"alice"⟩).2.db =
            c1cxStores.db.filter (fun d => d.external_id != "d1") ∧
        (delete_document_and_chunks (mkDeleteAdapters false true) c1cxStores "d1"
          ⟨"alice"⟩).2.vs =
            c1cxStores.vs.filter (fun c => c.document_id != "d1"))) ∨
      ((delete_document_and_chunks (mkDeleteAdapters false true) c1cxStores "d1"
          ⟨"alice"⟩).1 = false ∧
        (delete_document_and_chunks (mkDeleteAdapters false true) c1cxStores "d1"
          ⟨"alice"⟩).2 = c1cxStores)) := by
  decide

theorem claim_C1_witness :
    ((delete_document_and_chunks (mkDeleteAdapters false false) c1cxStores "d1"
        ⟨"alice"⟩).1 = true →
      (delete_document_and_chunks (mkDeleteAdapters false false) c1cxStores "d1"
        ⟨"alice"⟩).2 =
        { db := c1cxStores.db.filter (fun d => d.external_id != "d1"),
          vs := c1cxStores.vs.filter (fun c => c.document_id != "d1") }) ∧
    ((delete_document_and_chunks (mkDeleteAdapters false false) c1cxStores "d1"
        ⟨"alice"⟩).1 = false →
      (delete_document_and_chunks (mkDeleteAdapters false false) c1cxStores "d1"
        ⟨"alice"⟩).2 = c1cxStores ∨
      (delete_document_and_chunks (mkDeleteAdapters false false) c1cxStores "d1"
        ⟨"alice"⟩).2 =
        { db := c1cxStores.db.filter (fun d => d.external_id != "d1"),
          vs := c1cxStores.vs }) :=
  claim_C1_theorem (mkDeleteAdapters false false)
    (mkDeleteAdapters_delete_document_contract false false)
    (mkDeleteAdapters_delete_chunks_contract false false)
    (mkDeleteAdapters_count_contract false false)
    c1cxStores "d1" ⟨"alice"⟩ { external_id := "d1", owner_id := some "alice" }
    (by decide) (by decide)

/-! ## Claim C5 -/

/-- Claim C5, amended.  With the Mongo metadata store's `get_document` (which
conjoins `external_id == id` with the ownership filter
`owner_id == auth.user_id`), `delete_document_and_chunks` returns the SAME
not-found outcome — `false` with both stores untouched — whether no record
with the id exists or a record exists but the caller is not its owner.  The
two outcomes are NOT distinguished (refuting the original claim, see the
counterexample); it is precisely this indistinguishability, not a distinct
permission error, that prevents an unauthorized caller from probing whether
a document exists. -/
theorem claim_C5_theorem (A : DeleteAdapters)
    (hA : A.get_document = mongoGetDocument)
    (s : Stores) (id : String) (auth : AuthContext)
    (h : ∀ d ∈ s.db, d.external_id = id → d.owner_id ≠ some auth.user_id) :
    delete_document_and_chunks A s id auth = (false, s) := by
  have hnone : mongoGetDocument s id auth = none := by
    unfold mongoGetDocument
    rw [List.find?_eq_none]
    intro d hd
    simp only [Bool.and_eq_true, beq_iff_eq, not_and]
    exact fun he => h d hd he
  unfold delete_document_and_chunks
  rw [hA, hnone]

/-- Claim C5, counterexample to the original statement.  Concrete store: one
record `d1` owned by alice, no record `d2`.  For caller bob, deleting `d1`
(exists, unauthorized) and deleting `d2` (does not exist) produce identical
outcomes, so the not-found and unauthorized cases are not distinguished. -/
theorem claim_C5_counterexample :
    delete_document_and_chunks mongoDeleteAdapters c1cxStores "d1" ⟨"bob"⟩ =
      delete_document_and_chunks mongoDeleteAdapters c1cxStores "d2" ⟨"bob"⟩ ∧
    (∃ d ∈ c1cxStores.db, d.external_id = "d1") ∧
    (∀ d ∈ c1cxStores.db, d.external_id ≠ "d2") := by
  decide

theorem claim_C5_witness :
    delete_document_and_chunks mongoDeleteAdapters c1cxStores "d1" ⟨"bob"⟩ =
      (false, c1cxStores) :=
  claim_C5_theorem mongoDeleteAdapters rfl c1cxStores "d1" ⟨"bob"⟩ (by decide)

/-! ## Claim C6 -/

theorem countIngestChunks_append_fresh (s : IngestStores) (ext : String)
    (cs : List DocumentChunk) (db2 : List Document)
    (Hfresh : countIngestChunks s ext = 0)
    (Hobjs : ∀ c ∈ cs, c.document_id = ext) :
    countIngestChunks { vs := s.vs ++ cs, db_docs := db2 } ext = cs.length := by
  unfold countIngestChunks at *
  have h2 : cs.filter (fun c => c.document_id == ext) = cs :=
    List.filter_eq_self.mpr (fun c hc => by simp [Hobjs c hc])
  simp only [List.filter_append, List.length_append, h2]
  omega

/-- Claim C6: under the adapter contracts — a successful embedding store
appends exactly the given chunks and returns one id per chunk, a successful
document store appends exactly the given record, and failures change nothing
— `_store_chunks_and_doc` (the shared persistence step of both ingestion
entry points): (1) on success the stored document's `chunk_ids` is exactly
the id list the vector store returned, the record is in the metadata store,
and the vector index's chunk count for the document equals
`len(doc.chunk_ids)`; (2) if the document store fails AFTER the chunk store
succeeded, the call raises rather than returning success, with the chunks
already persisted and no document record written (chunks are stored strictly
before the record); (3) if the chunk store fails, the call raises with both
stores untouched. -/
theorem claim_C6_theorem (A : IngestAdapters)
    (Hse : ∀ s cs,
      ((A.store_embeddings s cs).1.1 = true →
        (A.store_embeddings s cs).2 = { vs := s.vs ++ cs, db_docs := s.db_docs } ∧
        (A.store_embeddings s cs).1.2.length = cs.length) ∧
      ((A.store_embeddings s cs).1.1 = false → (A.store_embeddings s cs).2 = s))
    (Hsd : ∀ s d,
      ((A.store_document s d).1 = true →
        (A.store_document s d).2 = { vs := s.vs, db_docs := s.db_docs ++ [d] }) ∧
      ((A.store_document s d).1 = false → (A.store_document s d).2 = s))
    (s : IngestStores) (chunk_objects : List DocumentChunk) (doc : Document)
    (Hfresh : countIngestChunks s doc.external_id = 0)
    (Hobjs : ∀ c ∈ chunk_objects, c.document_id = doc.external_id) :
    (∀ ids doc2, (_store_chunks_and_doc A s chunk_objects doc).2 = .ok (ids, doc2) →
      doc2.chunk_ids = ids ∧
      ids.length = chunk_objects.length ∧
      (_store_chunks_and_doc A s chunk_objects doc).1 =
        { vs := s.vs ++ chunk_objects, db_docs := s.db_docs ++ [doc2] } ∧
      countIngestChunks (_store_chunks_and_doc A s chunk_objects doc).1
        doc.external_id = doc2.chunk_ids.length) ∧
    ((A.store_embeddings s chunk_objects).1.1 = true →
      (A.store_document (A.store_embeddings s chunk_objects).2
        { doc with chunk_ids := (A.store_embeddings s chunk_objects).1.2 }).1 = false →
      (_store_chunks_and_doc A s chunk_objects doc).2 =
        .error (.genericException "Failed to store document metadata") ∧
      (_store_chunks_and_doc A s chunk_objects doc).1 =
        { vs := s.vs ++ chunk_objects, db_docs := s.db_docs }) ∧
    ((A.store_embeddings s chunk_objects).1.1 = false →
      (_store_chunks_and_doc A s chunk_objects doc).2 =
        .error (.genericException "Failed to store chunk embeddings") ∧
      (_store_chunks_and_doc A s chunk_objects doc).1 = s) := by
  cases hse : (A.store_embeddings s chunk_objects).1.1 with
  | false =>
    have hst : (A.store_embeddings s chunk_objects).2 = s :=
      (Hse s chunk_objects).2 hse
    have hres2 : (_store_chunks_and_doc A s chunk_objects doc).2 =
        .error (.genericException "Failed to store chunk embeddings") := by
      simp [_store_chunks_and_doc, hse]
    have hres1 : (_store_chunks_and_doc A s chunk_objects doc).1 = s := by
      simp [_store_chunks_and_doc, hse, hst]
    refine ⟨fun ids doc2 h => ?_, (fun h => nomatch h), fun _ => ⟨hres2, hres1⟩⟩
    rw [hres2] at h
    cases h
  | true =>
    obtain ⟨hst, hlen⟩ := (Hse s chunk_objects).1 hse
    cases hsd : (A.store_document (A.store_embeddings s chunk_objects).2
        { doc with chunk_ids := (A.store_embeddings s chunk_objects).1.2 }).1 with
    | false =>
      have hst2 := (Hsd (A.store_embeddings s chunk_objects).2
        { doc with chunk_ids := (A.store_embeddings s chunk_objects).1.2 }).2 hsd
      have hres2 : (_store_chunks_and_doc A s chunk_objects doc).2 =
          .error (.genericException "Failed to store document metadata") := by
        simp [_store_chunks_and_doc, hse, hsd]
      have hres0 : (_store_chunks_and_doc A s chunk_objects doc).1 =
          (A.store_document (A.store_embeddings s chunk_objects).2
            { doc with chunk_ids := (A.store_embeddings s chunk_objects).1.2 }).2 := by
        simp [_store_chunks_and_doc, hse, hsd]
      have hres1 : (_store_chunks_and_doc A s chunk_objects doc).1 =
          { vs := s.vs ++ chunk_objects, db_docs := s.db_docs } := by
        rw [hres0, hst2, hst]
      refine ⟨fun ids doc2 h => ?_, fun _ _ => ⟨hres2, hres1⟩, (fun h => nomatch h)⟩
      rw [hres2] at h
      cases h
    | true =>
      have hst2 := (Hsd (A.store_embeddings s chunk_objects).2
        { doc with chunk_ids := (A.store_embeddings s chunk_objects).1.2 }).1 hsd
      have hres2 : (_store_chunks_and_doc A s chunk_objects doc).2 =
          .ok ((A.store_embeddings s chunk_objects).1.2,
            { doc with chunk_ids := (A.store_embeddings s chunk_objects).1.2 }) := by
        simp [_store_chunks_and_doc, hse, hsd]
      have hres0 : (_store_chunks_and_doc A s chunk_objects doc).1 =
          (A.store_document (A.store_embeddings s chunk_objects).2
            { doc with chunk_ids := (A.store_embeddings s chunk_objects).1.2 }).2 := by
        simp [_store_chunks_and_doc, hse, hsd]
      have hres1 : (_store_chunks_and_doc A s chunk_objects doc).1 =
          { vs := s.vs ++ chunk_objects, db_docs := s.db_docs ++
            [{ doc with chunk_ids := (A.store_embeddings s chunk_objects).1.2 }] } := by
        rw [hres0, hst2, hst]
      refine ⟨fun ids doc2 h => ?_, (fun _ h => nomatch h), (fun h => nomatch h)⟩
      rw [hres2] at h
      have h3 : ((A.store_embeddings s chunk_objects).1.2,
          ({ doc with chunk_ids := (A.store_embeddings s chunk_objects).1.2 } :
            Document)) = (ids, doc2) := by
        cases h
        rfl
      have hi : (A.store_embeddings s chunk_objects).1.2 = ids :=
        congrArg Prod.fst h3
      have hd : ({ doc with chunk_ids := (A.store_embeddings s chunk_objects).1.2 } :
          Document) = doc2 :=
        congrArg Prod.snd h3
      have hstate : (_store_chunks_and_doc A s chunk_objects doc).1 =
          { vs := s.vs ++ chunk_objects, db_docs := s.db_docs ++ [doc2] } := by
        rw [hres1, hd]
      refine ⟨by rw [← hd, ← hi], by rw [← hi]; exact hlen, hstate, ?_⟩
      rw [hstate]
      rw [countIngestChunks_append_fresh s doc.external_id chunk_objects
        (s.db_docs ++ [doc2]) Hfresh Hobjs]
      rw [← hd]
      exact hlen.symm

/-- Canonical ingest adapters for witnesses and counterexamples: the stores
always succeed with exactly their contractual effect; the vector store
assigns the id `document_id ++ "-" ++ chunk_number` to each chunk; parsing
and embedding are the two supplied functions; rules extract nothing. -/
def mkIngestAdapters (split : String → List Chunk)
    (embed : List Chunk → List (List Int)) : IngestAdapters where
  split_text := split
  embed_for_ingestion := embed
  process_rules := fun _ _ => ([], none)
  store_embeddings := fun s cs =>
    ((true, cs.map (fun c => c.document_id ++ "-" ++ toString c.chunk_number)),
     { vs := s.vs ++ cs, db_docs := s.db_docs })
  store_document := fun s d => (true, { vs := s.vs, db_docs := s.db_docs ++ [d] })

theorem mkIngestAdapters_store_embeddings_contract (split : String → List Chunk)
    (embed : List Chunk → List (List Int)) :
    ∀ s cs,
      (((mkIngestAdapters split embed).store_embeddings s cs).1.1 = true →
        ((mkIngestAdapters split embed).store_embeddings s cs).2 =
          { vs := s.vs ++ cs, db_docs := s.db_docs } ∧
        ((mkIngestAdapters split embed).store_embeddings s cs).1.2.length = cs.length) ∧
      (((mkIngestAdapters split embed).store_embeddings s cs).1.1 = false →
        ((mkIngestAdapters split embed).store_embeddings s cs).2 = s) := by
  intro s cs
  exact ⟨fun _ => ⟨rfl, by simp [mkIngestAdapters]⟩, fun h => nomatch h⟩

theorem mkIngestAdapters_store_document_contract (split : String → List Chunk)
    (embed : List Chunk → List (List Int)) :
    ∀ s d,
      (((mkIngestAdapters split embed).store_document s d).1 = true →
        ((mkIngestAdapters split embed).store_document s d).2 =
          { vs := s.vs, db_docs := s.db_docs ++ [d] }) ∧
      (((mkIngestAdapters split embed).store_document s d).1 = false →
        ((mkIngestAdapters split embed).store_document s d).2 = s) := by
  intro s d
  exact ⟨fun _ => rfl, fun h => nomatch h⟩

/-- Ingest adapters for the C6 witness: one chunk, empty embeddings. -/
def c6Adapters : IngestAdapters :=
  mkIngestAdapters (fun _ => [{ content := "a" }]) (fun cs => cs.map (fun _ => []))

/-- The concrete document and chunk objects of the C6 witness. -/
def c6doc : Document := mkNewTextDocument "doc1" [] "user" "u"

def c6objs : List DocumentChunk := [Chunk.to_document_chunk { content := "a" } 0 [] "doc1"]

def c6s0 : IngestStores := { vs := [], db_docs := [] }

theorem claim_C6_witness :
    (∀ ids doc2, (_store_chunks_and_doc c6Adapters c6s0 c6objs c6doc).2 = .ok (ids, doc2) →
      doc2.chunk_ids = ids ∧
      ids.length = c6objs.length ∧
      (_store_chunks_and_doc c6Adapters c6s0 c6objs c6doc).1 =
        { vs := c6s0.vs ++ c6objs, db_docs := c6s0.db_docs ++ [doc2] } ∧
      countIngestChunks (_store_chunks_and_doc c6Adapters c6s0 c6objs c6doc).1
        c6doc.external_id = doc2.chunk_ids.length) ∧
    ((c6Adapters.store_embeddings c6s0 c6objs).1.1 = true →
      (c6Adapters.store_document { vs := c6s0.vs ++ c6objs, db_docs := c6s0.db_docs }
        { c6doc with chunk_ids := (c6Adapters.store_embeddings c6s0 c6objs).1.2 }).1 = false →
      (_store_chunks_and_doc c6Adapters c6s0 c6objs c6doc).2 =
        .error (.genericException "Failed to store document metadata") ∧
      (_store_chunks_and_doc c6Adapters c6s0 c6objs c6doc).1 =
        { vs := c6s0.vs ++ c6objs, db_docs := c6s0.db_docs }) ∧
    ((c6Adapters.store_embeddings c6s0 c6objs).1.1 = false →
      (_store_chunks_and_doc c6Adapters c6s0 c6objs c6doc).2 =
        .error (.genericException "Failed to store chunk embeddings") ∧
      (_store_chunks_and_doc c6Adapters c6s0 c6objs c6doc).1 = c6s0) :=
  claim_C6_theorem c6Adapters
    (mkIngestAdapters_store_embeddings_contract _ _)
    (mkIngestAdapters_store_document_contract _ _)
    c6s0 c6objs c6doc (by decide) (by decide)

/-! ## Claim C7 -/

theorem create_chunk_objects_aux (doc_id : String) :
    ∀ (es : List (List Int)) (cs : List Chunk) (n : Nat), es.length = cs.length →
      (((es.zip cs).enumFrom n).map
          (fun p => p.2.2.to_document_chunk p.1 p.2.1 doc_id)).map
            (fun o => o.content) = cs.map (fun c => c.content) ∧
      (((es.zip cs).enumFrom n).map
          (fun p => p.2.2.to_document_chunk p.1 p.2.1 doc_id)).map
            (fun o => o.embedding) = es ∧
      (((es.zip cs).enumFrom n).map
          (fun p => p.2.2.to_document_chunk p.1 p.2.1 doc_id)).map
            (fun o => o.chunk_number) = List.range' n cs.length ∧
      ∀ o ∈ ((es.zip cs).enumFrom n).map
          (fun p => p.2.2.to_document_chunk p.1 p.2.1 doc_id), o.document_id = doc_id := by
  intro es
  induction es with
  | nil =>
    intro cs n h
    cases cs with
    | nil => simp [List.range']
    | cons c cs2 => cases h
  | cons e es2 ih =>
    intro cs n h
    cases cs with
    | nil => cases h
    | cons c cs2 =>
      have h2 : es2.length = cs2.length := by
        simpa using h
      obtain ⟨ih1, ih2, ih3, ih4⟩ := ih cs2 (n + 1) h2
      refine ⟨?_, ?_, ?_, ?_⟩
      · simpa [Chunk.to_document_chunk] using ih1
      · simpa [Chunk.to_document_chunk] using ih2
      · simpa [Chunk.to_document_chunk, List.range'] using ih3
      · intro o ho
        simp only [List.zip_cons_cons, List.enumFrom, List.map_cons, List.mem_cons] at ho
        rcases ho with ho | ho
        · rw [ho]; rfl
        · exact ih4 o ho

/-- Claim C7, amended.  When the embedder returns exactly one embedding per
chunk (the 1:1 batch contract), `_create_chunk_objects` produces chunk
objects in one-to-one, order-preserving correspondence with the split chunks
and their embeddings, with `chunk_number` exactly `0, 1, ..., n-1` in
insertion order and every object tied to the given document id.  The original
claim's parenthetical — a batch-size mismatch is never silently tolerated —
is refuted by the counterexample: `zip` silently truncates, no defect is
signalled. -/
theorem claim_C7_theorem (doc_id : String) (chunks : List Chunk)
    (embeddings : List (List Int)) (h : embeddings.length = chunks.length) :
    (_create_chunk_objects doc_id chunks embeddings).map (fun o => o.content) =
      chunks.map (fun c => c.content) ∧
    (_create_chunk_objects doc_id chunks embeddings).map (fun o => o.embedding) =
      embeddings ∧
    (_create_chunk_objects doc_id chunks embeddings).map (fun o => o.chunk_number) =
      List.range chunks.length ∧
    ∀ o ∈ _create_chunk_objects doc_id chunks embeddings, o.document_id = doc_id := by
  have haux := create_chunk_objects_aux doc_id embeddings chunks 0 h
  rw [List.range_eq_range' chunks.length]
  exact haux

/-- Ingest adapters for the C7 counterexample: the parser splits into TWO
chunks while the embedder returns ONE embedding — a batch-size mismatch. -/
def c7cxAdapters : IngestAdapters :=
  mkIngestAdapters (fun _ => [{ content := "a" }, { content := "b" }]) (fun _ => [[1]])

/-- The fresh document record used by the C7 counterexample run. -/
def c7doc : Document := mkNewTextDocument "doc2" [] "user" "u"

/-- Claim C7, counterexample to the original statement.  With a parser
yielding 2 chunks and an embedder yielding 1 embedding (a batch-size
mismatch), the ingestion tail SUCCEEDS — no exception, no defect signal — and
silently persists a single chunk object (`zip` truncation): the persisted
chunk objects are not in one-to-one correspondence with the split chunks. -/
theorem claim_C7_counterexample :
    (c7cxAdapters.split_text "ab").length = 2 ∧
    (c7cxAdapters.embed_for_ingestion (c7cxAdapters.split_text "ab")).length = 1 ∧
    (ingest_text_tail c7cxAdapters { vs := [], db_docs := [] } c7doc "ab").2.isOk = true ∧
    (ingest_text_tail c7cxAdapters { vs := [], db_docs := [] } c7doc "ab").1.vs.length = 1 := by
  decide

theorem claim_C7_witness :
    (_create_chunk_objects "doc2" [{ content := "a" }, { content := "b" }]
        [[1], [2]]).map (fun o => o.content) =
      ([{ content := "a" }, { content := "b" }] : List Chunk).map (fun c => c.content) ∧
    (_create_chunk_objects "doc2" [{ content := "a" }, { content := "b" }]
        [[1], [2]]).map (fun o => o.embedding) = [[1], [2]] ∧
    (_create_chunk_objects "doc2" [{ content := "a" }, { content := "b" }]
        [[1], [2]]).map (fun o => o.chunk_number) =
      List.range ([{ content := "a" }, { content := "b" }] : List Chunk).length ∧
    ∀ o ∈ _create_chunk_objects "doc2" [{ content := "a" }, { content := "b" }]
        [[1], [2]], o.document_id = "doc2" :=
  claim_C7_theorem "doc2" [{ content := "a" }, { content := "b" }] [[1], [2]] rfl

/-! ## Claim C4 -/

/-- Claim C4 (code bug).  The claim says a caller whose permission set lacks
`write` is rejected with a permission error before parsing or storing, and a
caller whose set contains `write` is not so rejected.  In the code,
`AuthContext` (auth.py lines 11..13) declares only `user_id`; it has no
permission set at all, while both entry points read `auth.permissions`
(document_service.py lines 153 and 211) and the API layer even constructs
`AuthContext(entity_type=…, entity_id=…, permissions=…)` without `user_id`
(api.py lines 236..239).  Consequently EVERY `ingest_text` call — whatever
permissions its token carried — fails with `AttributeError`, not
`PermissionError`, before parsing, chunking or any store write (the returned
state is the untouched input state), and no caller is ever admitted; the
shared permission gate shows the same for `ingest_file`. -/
theorem claim_C4_theorem (A : IngestAdapters) (s : IngestStores)
    (fresh_id content : String) (metadata : Option MetaMap) (auth : AuthContext)
    (rules : List String) :
    ingest_permission_gate auth =
      some (.attributeError "AuthContext object has no attribute permissions") ∧
    ingest_text A s fresh_id content metadata auth rules =
      (s, .error (.attributeError "AuthContext object has no attribute permissions")) :=
  ⟨rfl, rfl⟩

/-! ## Claim C10 -/

/-- Claim C10: every `ingest_text` call that supplies a non-empty rules list
while leaving `metadata` as `None` fails with an exception before any chunk
or document is stored (the returned state is exactly the input state).  In
fact the call fails even earlier than the claim's rationale suggests: the
permission gate's `auth.permissions` access raises `AttributeError` for every
caller (see C4), so the metadata merge of line 173 — which would itself raise
`AttributeError` on `None.update(...)`, as the embedded rules branch shows —
is never reached. -/
theorem claim_C10_theorem (A : IngestAdapters) (s : IngestStores)
    (fresh_id content : String) (auth : AuthContext) (rules : List String)
    (h : rules ≠ []) :
    ingest_text A s fresh_id content none auth rules =
      (s, .error (.attributeError "AuthContext object has no attribute permissions")) :=
  rfl

theorem claim_C10_witness :
    ingest_text c6Adapters { vs := [], db_docs := [] } "doc3" "content" none
      ⟨"u1"⟩ ["rule1"] =
      ({ vs := [], db_docs := [] },
        .error (.attributeError "AuthContext object has no attribute permissions")) :=
  claim_C10_theorem c6Adapters { vs := [], db_docs := [] } "doc3" "content"
    ⟨"u1"⟩ ["rule1"] (by decide)

/-! ## Claim C3 -/

theorem string_append_caches_ne (x : String) : "caches/" ++ x ≠ x := by
  intro h
  have h2 := congrArg String.length h
  rw [String.length_append] at h2
  have h7 : ("caches/" : String).length = 7 := rfl
  rw [h7] at h2
  omega

theorem lookup_filter_ne {α : Type} (l : List ((String × String) × α))
    (k k2 : String × String) (h : ¬ (k2 = k)) :
    (l.filter (fun kv => kv.1 != k)).lookup k2 = l.lookup k2 := by
  induction l with
  | nil => rfl
  | cons kv l2 ih =>
    have hne2 : (k2 == k) = false := beq_eq_false_iff_ne.mpr h
    by_cases hk : kv.1 = k
    · simp only [List.filter, hk, bne_self_eq_false, List.lookup, hne2, ih]
    · have hkeep : (kv.1 != k) = true := bne_iff_ne.mpr hk
      cases hb : k2 == kv.1 with
      | false => simp only [List.filter, hkeep, List.lookup, hb, ih]
      | true => simp only [List.filter, hkeep, List.lookup, hb]

/-- Claim C3 (code bug).  `create_cache` uploads the serialized state to
bucket `"caches"` under key `name ++ "_state.pkl"`, but `load_cache`
downloads bucket `"caches"` under key `"caches/" ++ name ++ "_state.pkl"` — a
different key for every name.  So whenever the blob store holds nothing under
the spurious prefixed key, a successful `create_cache(name, …, docs)`
followed by `load_cache(name)` has the download fail inside the `try`,
`load_cache` reports failure, and NO active in-memory cache is registered
under the name — the claimed active cache with document set `{d1}` never
materializes. -/
theorem claim_C3_theorem (s : CacheStores) (name model gguf : String)
    (docs : List Document) (filters : Option Filters)
    (hstale : s.blobs.lookup ("caches", "caches/" ++ (name ++ "_state.pkl")) = none) :
    (create_cache s name model gguf docs filters).2 = true ∧
    (load_cache (create_cache s name model gguf docs filters).1 name).2 = false ∧
    (load_cache (create_cache s name model gguf docs filters).1 name).1.active_caches =
      (create_cache s name model gguf docs filters).1.active_caches := by
  refine ⟨rfl, ?_, ?_⟩
  all_goals
    have hmd : ((create_cache s name model gguf docs filters).1).cache_metadata.lookup name =
        some { model := model, model_file := gguf, filters := filters,
               docs := docs.map serializeDoc, storage_bucket := "caches",
               storage_key := name ++ "_state.pkl" } := by
      simp [create_cache, upsertA, List.lookup]
    have hkne : ¬ ((("caches", "caches/" ++ (name ++ "_state.pkl")) :
        String × String) = ("caches", name ++ "_state.pkl")) := by
      intro h2
      exact string_append_caches_ne (name ++ "_state.pkl") (congrArg Prod.snd h2)
    have hblob : ((create_cache s name model gguf docs filters).1).blobs.lookup
        ("caches", "caches/" ++ (name ++ "_state.pkl")) = none := by
      have hstep : ((create_cache s name model gguf docs filters).1).blobs =
          (("caches", name ++ "_state.pkl"), docs.map serializeDoc) ::
            s.blobs.filter (fun kv => kv.1 != ("caches", name ++ "_state.pkl")) := rfl
      rw [hstep]
      simp only [List.lookup, beq_eq_false_iff_ne.mpr hkne]
      rw [lookup_filter_ne s.blobs ("caches", name ++ "_state.pkl")
        ("caches", "caches/" ++ (name ++ "_state.pkl")) hkne]
      exact hstale
    simp [load_cache, hmd, hblob]

theorem claim_C3_witness :
    (create_cache { cache_metadata := [], blobs := [], active_caches := [] }
      "c1" "m" "f.gguf" [mkDocFor "d1"] none).2 = true ∧
    (load_cache (create_cache { cache_metadata := [], blobs := [], active_caches := [] }
      "c1" "m" "f.gguf" [mkDocFor "d1"] none).1 "c1").2 = false ∧
    (load_cache (create_cache { cache_metadata := [], blobs := [], active_caches := [] }
      "c1" "m" "f.gguf" [mkDocFor "d1"] none).1 "c1").1.active_caches =
      (create_cache { cache_metadata := [], blobs := [], active_caches := [] }
        "c1" "m" "f.gguf" [mkDocFor "d1"] none).1.active_caches :=
  claim_C3_theorem { cache_metadata := [], blobs := [], active_caches := [] }
    "c1" "m" "f.gguf" [mkDocFor "d1"] none rfl

end DataBridge
